import Mathlib

/-!
Shallow embedding of the order/catalog backend (`src/api/models.py`,
`src/api/serializers.py`, `src/api/views.py`, `src/api/filters.py`).

Prices are `DecimalField(max_digits=10, decimal_places=2)` values; we model
them as exact rationals (`ℚ`), so decimal arithmetic is exact and no rounding
is introduced.  Primary keys and the UUID `order_id` are modelled as natural
numbers; the database is a record of lists of rows.  `transaction.atomic`
blocks are modelled by functions returning `Except`: an `Except.error` result
means the whole block rolled back, so the persisted state stays the caller's
original `DB` (made explicit by the `...Final` wrappers).
-/

namespace Api

/-- `Order.StatusChoices` from `models.py`: pending / confirmed / cancelled. -/
inductive StatusChoices
  | pending
  | confirmed
  | cancelled
deriving DecidableEq, Repr

/-- A `Product` row (`models.py`): name, description, decimal price, stock. -/
structure Product where
  id : Nat
  name : String
  description : String
  price : ℚ
  stock : Nat
deriving DecidableEq, Repr

/-- `Product.in_stock` property from `models.py`: `stock > 0`. -/
def Product.in_stock (p : Product) : Bool :=
  decide (0 < p.stock)

/-- An `Order` header row (`models.py`): UUID key, owning user, status. -/
structure Order where
  order_id : Nat
  user : Nat
  status : StatusChoices
deriving DecidableEq, Repr

/-- An `OrderItem` row (`models.py`): FK to its order, FK to a product,
positive quantity. -/
structure OrderItem where
  id : Nat
  order : Nat
  product : Nat
  quantity : Nat
deriving DecidableEq, Repr

/-- One entry of the `items` list accepted by `OrderCreateSerializer`
(`fields = ('product', 'quantity')`). -/
structure ItemSpec where
  product : Nat
  quantity : Nat
deriving DecidableEq, Repr

/-- The relational store backing the app: products, order headers, order
items, plus the next fresh `OrderItem` surrogate key. -/
structure DB where
  products : List Product
  orders : List Order
  orderItems : List OrderItem
  nextItemId : Nat
deriving Repr

/-- Errors surfaced by the modelled operations. -/
inductive ApiError
  | missingItemsKey
  | invalidProduct (pid : Nat)
  | validationError (msg : String)
  | unauthorized
deriving DecidableEq, Repr

/-- Whether a product with the given primary key exists (the FK check that
`OrderItem.objects.create(..., product=...)` enforces). -/
def productExists (db : DB) (pid : Nat) : Bool :=
  db.products.any (fun p => p.id == pid)

/-- Look up a product row by primary key. -/
def findProduct (db : DB) (pid : Nat) : Option Product :=
  db.products.find? (fun p => p.id == pid)

/-- The price of the product referenced by an item (`item.product.price`). -/
def priceOf (db : DB) (pid : Nat) : ℚ :=
  ((findProduct db pid).map Product.price).getD 0

/-- `order.items.all()`: the items whose FK points at the given order. -/
def itemsOfOrder (db : DB) (oid : Nat) : List OrderItem :=
  db.orderItems.filter (fun i => i.order == oid)

/-- The observable content of an item row: (product FK, quantity). -/
def OrderItem.toPair (i : OrderItem) : Nat × Nat :=
  (i.product, i.quantity)

/-- The observable content of an input item spec. -/
def ItemSpec.toPair (s : ItemSpec) : Nat × Nat :=
  (s.product, s.quantity)

/-- `OrderItem.item_subtotal` property (`models.py`):
`self.quantity * self.product.price`. -/
def OrderItem.item_subtotal (db : DB) (i : OrderItem) : ℚ :=
  (i.quantity : ℚ) * priceOf db i.product

/-- The loop `for item in order_item_data: OrderItem.objects.create(...)`
inside the serializers' atomic blocks: inserts one row per spec, failing
with an FK violation if the referenced product does not exist. -/
def insertItems (oid : Nat) : DB → List ItemSpec → Except ApiError DB
  | db, [] => Except.ok db
  | db, s :: rest =>
    if productExists db s.product then
      insertItems oid
        { db with
            orderItems := db.orderItems ++ [⟨db.nextItemId, oid, s.product, s.quantity⟩],
            nextItemId := db.nextItemId + 1 }
        rest
    else Except.error (ApiError.invalidProduct s.product)

namespace ProductSerializer

/-- `ProductSerializer.validate_price` (`serializers.py`): rejects any value
not strictly greater than 0, otherwise returns the value unchanged. -/
def validate_price (value : ℚ) : Except ApiError ℚ :=
  if value ≤ 0 then
    Except.error (ApiError.validationError "Price must be greater than 0")
  else
    Except.ok value

end ProductSerializer

/-- `POST /products/` after permission checks: run `validate_price`, and only
on success persist the new `Product` row. -/
def productCreate (db : DB) (pid : Nat) (name description : String)
    (price : ℚ) (stock : Nat) : Except ApiError DB :=
  match ProductSerializer.validate_price price with
  | Except.error e => Except.error e
  | Except.ok p =>
      Except.ok { db with products := db.products ++ [⟨pid, name, description, p, stock⟩] }

/-- The persisted state after a `POST /products/` attempt: a validation error
leaves the store untouched. -/
def productCreateFinal (db : DB) (pid : Nat) (name description : String)
    (price : ℚ) (stock : Nat) : DB :=
  match productCreate db pid name description price stock with
  | Except.ok db2 => db2
  | Except.error _ => db

namespace OrderCreateSerializer

/-- The `items` field is declared `required=False` (`serializers.py` line 51). -/
def itemsRequired : Bool := false

/-- `OrderCreateSerializer.create` (`serializers.py`).  `validated_data` is
modelled by the explicit arguments; `items : Option _` is `none` exactly when
the key is absent from `validated_data`.  `validated_data.pop('items')` has
no default, so an absent key raises `KeyError` before any write.  Otherwise,
inside `transaction.atomic()`, the `Order` header is written and then one
`OrderItem` per spec. -/
def create (db : DB) (newOrderId user : Nat) (status : StatusChoices)
    (items : Option (List ItemSpec)) : Except ApiError DB :=
  match items with
  | none => Except.error ApiError.missingItemsKey
  | some specs =>
      insertItems newOrderId
        { db with orders := db.orders ++ [⟨newOrderId, user, status⟩] }
        specs

/-- The persisted state after a `create` call: `transaction.atomic()` rolls
every write back on failure, so an error leaves the original store. -/
def createFinal (db : DB) (newOrderId user : Nat) (status : StatusChoices)
    (items : Option (List ItemSpec)) : DB :=
  match create db newOrderId user status items with
  | Except.ok db2 => db2
  | Except.error _ => db

/-- `super().update(instance, validated_data)` after `items` was popped:
the only writable header field left is `status` (`order_id` is read-only and
`user` has `read_only: True`), so it overwrites `status` when supplied. -/
def applyHeaderUpdate (db : DB) (oid : Nat) (status : Option StatusChoices) : DB :=
  { db with
      orders := db.orders.map (fun o =>
        if o.order_id == oid then { o with status := status.getD o.status } else o) }

/-- `OrderCreateSerializer.update` (`serializers.py`):
`validated_data.pop('items', None)`; inside `transaction.atomic()` the header
is updated, and if the `items` key was present (even `[]`) all existing items
of this order are deleted and recreated from the new specs. -/
def update (db : DB) (oid : Nat) (status : Option StatusChoices)
    (items : Option (List ItemSpec)) : Except ApiError DB :=
  let db1 := applyHeaderUpdate db oid status
  match items with
  | none => Except.ok db1
  | some specs =>
      insertItems oid
        { db1 with orderItems := db1.orderItems.filter (fun i => !(i.order == oid)) }
        specs

/-- The persisted state after an `update` call: on failure the atomic block
rolls back both the header write and the item rewrite. -/
def updateFinal (db : DB) (oid : Nat) (status : Option StatusChoices)
    (items : Option (List ItemSpec)) : DB :=
  match update db oid status items with
  | Except.ok db2 => db2
  | Except.error _ => db

end OrderCreateSerializer

namespace OrderSerializer

/-- `items = OrderItemSerializer(many=True, read_only=True)`
(`serializers.py` line 31). -/
def itemsReadOnly : Bool := true

/-- `OrderSerializer.get_total_price`:
`sum(item.item_subtotal for item in order.items.all())`. -/
def get_total_price (db : DB) (oid : Nat) : ℚ :=
  ((itemsOfOrder db oid).map (fun i => i.item_subtotal db)).sum

end OrderSerializer

/-- The `ModelViewSet` actions relevant to `OrderViewSet`; `patchUpdate`
models the `partial_update` action the PATCH route dispatches to. -/
inductive ViewAction
  | create
  | update
  | patchUpdate
  | list
  | retrieve
  | destroy
deriving DecidableEq, Repr

/-- The two serializer classes `OrderViewSet.get_serializer_class` chooses
between. -/
inductive SerializerClass
  | orderCreateSerializer
  | orderSerializer
deriving DecidableEq, Repr

/-- Whether the serializer class treats `items` as writable input:
`OrderCreateSerializer.items` is writable, `OrderSerializer.items` is
declared `read_only=True`, so DRF drops a supplied `items` key from
`validated_data` before `update` runs. -/
def SerializerClass.itemsWritable : SerializerClass → Bool
  | SerializerClass.orderCreateSerializer => true
  | SerializerClass.orderSerializer => false

namespace OrderViewSet

/-- `OrderViewSet.get_serializer_class` (`views.py`):
`if self.action in ('create', 'update'): return OrderCreateSerializer`,
otherwise the class attribute `OrderSerializer`. -/
def get_serializer_class (a : ViewAction) : SerializerClass :=
  if a = ViewAction.create ∨ a = ViewAction.update then
    SerializerClass.orderCreateSerializer
  else
    SerializerClass.orderSerializer

/-- An update-style request (`PUT` → `update`, `PATCH` → `partial_update`)
through `OrderViewSet`: the chosen serializer class decides whether the
supplied `items` key survives validation; a read-only `items` field is
silently dropped, after which the default header-only update runs — which
coincides with `OrderCreateSerializer.update` receiving `items = none`. -/
def performUpdateAction (db : DB) (a : ViewAction) (oid : Nat)
    (status : Option StatusChoices) (suppliedItems : Option (List ItemSpec)) :
    Except ApiError DB :=
  let cls := get_serializer_class a
  let items := if cls.itemsWritable then suppliedItems else none
  OrderCreateSerializer.update db oid status items

end OrderViewSet

/-- The requesting identity: anonymous, or an authenticated user (with the
staff flag). -/
inductive Caller
  | anonymous
  | authenticated (userId : Nat) (is_staff : Bool)
deriving DecidableEq, Repr

/-- `UserOrderListAPIView` (`views.py`): `permission_classes =
(IsAuthenticated,)` rejects anonymous callers with 401; `get_queryset`
filters the orders to `user=self.request.user`. -/
def userOrderList (db : DB) (c : Caller) : Except ApiError (List Order) :=
  match c with
  | Caller.anonymous => Except.error ApiError.unauthorized
  | Caller.authenticated uid _ => Except.ok (db.orders.filter (fun o => o.user == uid))

/-! ### Product listing: `ProductListCreateAPIView` and its filter backends -/

/-- Case-insensitive string equality (`iexact` lookup). -/
def iexact (a b : String) : Bool :=
  a.toLower == b.toLower

/-- Does `sub` occur at the head of `l`? -/
def charsHeadMatch : List Char → List Char → Bool
  | _, [] => true
  | [], _ :: _ => false
  | a :: as, b :: bs => a == b && charsHeadMatch as bs

/-- Does `sub` occur anywhere inside `l`? -/
def charsContain : List Char → List Char → Bool
  | _, [] => true
  | [], _ :: _ => false
  | a :: as, b :: bs =>
      charsHeadMatch (a :: as) (b :: bs) || charsContain as (b :: bs)

/-- Case-insensitive substring test (`icontains` lookup). -/
def icontains (hay need : String) : Bool :=
  charsContain hay.toLower.data need.toLower.data

/-- Which field an `ordering=` query parameter sorts by
(`ordering_fields = ('name', 'price', 'stock')`). -/
inductive OrderingField
  | byName
  | byPrice
  | byStock
deriving DecidableEq, Repr

/-- One ordering request: a field and a direction (`-` means descending). -/
structure OrderingParam where
  field : OrderingField
  descending : Bool
deriving DecidableEq, Repr

/-- The comparison the `OrderingFilter` backend sorts with. -/
def orderingLe (o : OrderingParam) (a b : Product) : Bool :=
  let le :=
    match o.field with
    | OrderingField.byName => decide (a.name ≤ b.name)
    | OrderingField.byPrice => decide (a.price ≤ b.price)
    | OrderingField.byStock => decide (a.stock ≤ b.stock)
  if o.descending then !le || decide (a = b) else le

/-- Insert into a sorted list (the sorting primitive used below). -/
def insertLe (le : Product → Product → Bool) (x : Product) :
    List Product → List Product
  | [] => [x]
  | y :: ys => if le x y then x :: y :: ys else y :: insertLe le x ys

/-- Insertion sort: the ordering backend returns the same rows sorted. -/
def sortLe (le : Product → Product → Bool) : List Product → List Product
  | [] => []
  | x :: xs => insertLe le x (sortLe le xs)

/-- The query parameters a caller may supply to `GET /products/`:
`ProductFilter` lookups, the search term, the ordering, and pagination. -/
structure ProductQuery where
  name_iexact : Option String
  name_icontains : Option String
  price_exact : Option ℚ
  price_lt : Option ℚ
  price_gt : Option ℚ
  price_range : Option (ℚ × ℚ)
  search : Option String
  ordering : Option OrderingParam
  page : Nat
  size : Option Nat

/-- `DjangoFilterBackend` with `ProductFilter` (`filters.py`): each supplied
lookup narrows the queryset. -/
def applyProductFilter (q : ProductQuery) (l : List Product) : List Product :=
  let l := match q.name_iexact with
    | none => l
    | some s => l.filter (fun p => iexact p.name s)
  let l := match q.name_icontains with
    | none => l
    | some s => l.filter (fun p => icontains p.name s)
  let l := match q.price_exact with
    | none => l
    | some v => l.filter (fun p => p.price == v)
  let l := match q.price_lt with
    | none => l
    | some v => l.filter (fun p => decide (p.price < v))
  let l := match q.price_gt with
    | none => l
    | some v => l.filter (fun p => decide (v < p.price))
  match q.price_range with
  | none => l
  | some r => l.filter (fun p => decide (r.1 ≤ p.price) && decide (p.price ≤ r.2))

/-- `SearchFilter` with `search_fields = ('name', 'description')`:
case-insensitive containment in name or description. -/
def applySearch (q : ProductQuery) (l : List Product) : List Product :=
  match q.search with
  | none => l
  | some s => l.filter (fun p => icontains p.name s || icontains p.description s)

/-- `OrderingFilter` with `ordering_fields = ('name', 'price', 'stock')`. -/
def applyOrdering (q : ProductQuery) (l : List Product) : List Product :=
  match q.ordering with
  | none => l
  | some o => sortLe (orderingLe o) l

namespace InStockFilter

/-- `InStockFilter.filter_queryset` (`filters.py`): unconditionally applies
`queryset.filter(stock__gt=0)`. -/
def filter_queryset (l : List Product) : List Product :=
  l.filter (fun p => decide (0 < p.stock))

end InStockFilter

/-- `CustomPagination` (`views.py`): `page_size = 3`,
`page_size_query_param = 'size'`, `max_page_size = 5`; page `n` holds the
`n`-th chunk of the filtered list. -/
def paginate (page : Nat) (size : Option Nat) (l : List Product) :
    List Product :=
  let sz := min ((size.getD 3).max 1) 5
  (l.drop ((page - 1) * sz)).take sz

/-- `GET /products/` (`ProductListCreateAPIView`): the four filter backends
run in declaration order — `DjangoFilterBackend`, `SearchFilter`,
`OrderingFilter`, `InStockFilter` — and the result is paginated. -/
def product_list (db : DB) (q : ProductQuery) : List Product :=
  paginate q.page q.size
    (InStockFilter.filter_queryset
      (applyOrdering q
        (applySearch q
          (applyProductFilter q db.products))))

/-- A small concrete store used to instantiate the theorems below. -/
def sampleDB : DB :=
  { products := [⟨1, "Laptop", "Portable computer", 5, 4⟩, ⟨2, "Mouse", "USB mouse", 3, 7⟩],
    orders := [⟨10, 7, StatusChoices.pending⟩, ⟨11, 8, StatusChoices.confirmed⟩],
    orderItems := [⟨100, 10, 1, 2⟩],
    nextItemId := 101 }

/-- A `GET /products/` query supplying no filters: first page, default size. -/
def sampleQuery : ProductQuery :=
  { name_iexact := none, name_icontains := none, price_exact := none,
    price_lt := none, price_gt := none, price_range := none,
    search := none, ordering := none, page := 1, size := none }

/-! ## Lemmas about the item-insertion loop -/

/-- When every spec references an existing product, the insertion loop
succeeds, leaves the product and order tables untouched, appends exactly one
row per spec to the target order, and does not disturb any other order's
items. -/
theorem insertItems_ok (oid : Nat) (specs : List ItemSpec) :
    ∀ db : DB, (∀ s ∈ specs, productExists db s.product = true) →
      ∃ db', insertItems oid db specs = Except.ok db' ∧
        db'.products = db.products ∧
        db'.orders = db.orders ∧
        db'.orderItems.length = db.orderItems.length + specs.length ∧
        (∀ oid', oid' ≠ oid → itemsOfOrder db' oid' = itemsOfOrder db oid') ∧
        (itemsOfOrder db' oid).map OrderItem.toPair
          = (itemsOfOrder db oid).map OrderItem.toPair ++ specs.map ItemSpec.toPair := by
  induction specs with
  | nil =>
      intro db _
      exact ⟨db, rfl, rfl, rfl, rfl, fun _ _ => rfl, by simp⟩
  | cons s rest ih =>
      intro db h
      have hs : productExists db s.product = true := h s (List.mem_cons_self _ _)
      obtain ⟨db', heq, hp, ho, hlen, hother, hmain⟩ :=
        ih { db with
               orderItems := db.orderItems ++ [⟨db.nextItemId, oid, s.product, s.quantity⟩],
               nextItemId := db.nextItemId + 1 }
           (fun t ht => h t (List.mem_cons_of_mem _ ht))
      refine ⟨db', ?_, hp, ho, ?_, ?_, ?_⟩
      · simpa [insertItems, hs] using heq
      · simp only [List.length_append, List.length_cons, List.length_nil] at hlen ⊢
        omega
      · intro oid' hne
        rw [hother oid' hne]
        simp [itemsOfOrder, List.filter_append, Ne.symm hne]
      · rw [hmain]
        simp [itemsOfOrder, List.filter_append, OrderItem.toPair, ItemSpec.toPair]

/-- The insertion loop fails whenever some spec references a product that is
not in the store. -/
theorem insertItems_err (oid : Nat) (specs : List ItemSpec) :
    ∀ db : DB, (∃ s ∈ specs, productExists db s.product = false) →
      ∃ e, insertItems oid db specs = Except.error e := by
  induction specs with
  | nil => intro db h; simp at h
  | cons s rest ih =>
      intro db h
      obtain ⟨t, ht, hbad⟩ := h
      by_cases hs : productExists db s.product = true
      · have htrest : t ∈ rest := by
          rcases List.mem_cons.mp ht with h1 | h1
          · subst h1; simp [hs] at hbad
          · exact h1
        obtain ⟨e, he⟩ :=
          ih { db with
                 orderItems := db.orderItems ++ [⟨db.nextItemId, oid, s.product, s.quantity⟩],
                 nextItemId := db.nextItemId + 1 }
             ⟨t, htrest, hbad⟩
        exact ⟨e, by simpa [insertItems, hs] using he⟩
      · refine ⟨ApiError.invalidProduct s.product, ?_⟩
        have hs' : productExists db s.product = false := by
          cases hx : productExists db s.product
          · rfl
          · exact absurd hx hs
        simp [insertItems, hs']

/-! ## Claims -/

/-- Claim C1: a `create()` call whose item specs all reference existing
products persists exactly one new `Order` header and exactly one `OrderItem`
per spec (the new order's item set is exactly the specs); if any spec
references a missing product, the atomic block rolls back and the store is
exactly the pre-call store — never an intermediate state. -/
theorem claim_C1 (db : DB) (oid uid : Nat) (st : StatusChoices) (specs : List ItemSpec) :
    ((∀ s ∈ specs, productExists db s.product = true) →
      ∃ db', OrderCreateSerializer.create db oid uid st (some specs) = Except.ok db' ∧
        db'.orders = db.orders ++ [⟨oid, uid, st⟩] ∧
        db'.products = db.products ∧
        db'.orderItems.length = db.orderItems.length + specs.length ∧
        ((∀ i ∈ db.orderItems, i.order ≠ oid) →
          (itemsOfOrder db' oid).map OrderItem.toPair = specs.map ItemSpec.toPair)) ∧
    ((∃ s ∈ specs, productExists db s.product = false) →
      OrderCreateSerializer.createFinal db oid uid st (some specs) = db) := by
  constructor
  · intro hvalid
    obtain ⟨db', heq, hp, ho, hlen, _, hmain⟩ :=
      insertItems_ok oid specs
        { db with orders := db.orders ++ [⟨oid, uid, st⟩] }
        (fun s hs => hvalid s hs)
    refine ⟨db', ?_, ?_, ?_, ?_, ?_⟩
    · simpa [OrderCreateSerializer.create] using heq
    · simpa using ho
    · simpa using hp
    · simpa using hlen
    · intro hfresh
      rw [hmain]
      have hnil : itemsOfOrder { db with orders := db.orders ++ [⟨oid, uid, st⟩] } oid = [] := by
        apply List.filter_eq_nil_iff.mpr
        intro i hi
        simp only [beq_iff_eq]
        exact hfresh i hi
      rw [hnil]
      simp
  · intro hbad
    obtain ⟨e, he⟩ :=
      insertItems_err oid specs
        { db with orders := db.orders ++ [⟨oid, uid, st⟩] } hbad
    simp [OrderCreateSerializer.createFinal, OrderCreateSerializer.create, he]

/-- Witness for C1: with the sample store, an all-valid create persists the
order with exactly the supplied items, and a create containing an unknown
product id 99 leaves the store exactly as it was. -/
theorem claim_C1_witness :
    OrderCreateSerializer.createFinal sampleDB 12 7 StatusChoices.pending
        (some [⟨1, 2⟩, ⟨99, 1⟩]) = sampleDB ∧
    ∃ db', OrderCreateSerializer.create sampleDB 12 7 StatusChoices.pending
        (some [⟨1, 2⟩, ⟨2, 5⟩]) = Except.ok db' ∧
      (itemsOfOrder db' 12).map OrderItem.toPair = [(1, 2), (2, 5)] := by
  constructor
  · exact (claim_C1 sampleDB 12 7 StatusChoices.pending [⟨1, 2⟩, ⟨99, 1⟩]).2 (by decide)
  · obtain ⟨db', heq, _, _, _, hmain⟩ :=
      (claim_C1 sampleDB 12 7 StatusChoices.pending [⟨1, 2⟩, ⟨2, 5⟩]).1 (by decide)
    exact ⟨db', heq, hmain (by decide)⟩

/-- Claim C4: an `update()` whose validated data has no `items` key succeeds,
performs only the header update, and leaves the `OrderItem` table — hence
every order's item set — completely unchanged. -/
theorem claim_C4 (db : DB) (oid : Nat) (st : Option StatusChoices) :
    OrderCreateSerializer.update db oid st none
      = Except.ok (OrderCreateSerializer.applyHeaderUpdate db oid st) ∧
    (OrderCreateSerializer.applyHeaderUpdate db oid st).orderItems = db.orderItems ∧
    ∀ oid', itemsOfOrder (OrderCreateSerializer.applyHeaderUpdate db oid st) oid'
      = itemsOfOrder db oid' :=
  ⟨rfl, rfl, fun _ => rfl⟩

/-- Claim C10: the `items` field is declared optional (`required=False`), yet
`create()` pops it without a default, so a call whose validated data lacks
the key fails with the missing-key error before any write; with the key
present — even as `[]` — the call succeeds. -/
theorem claim_C10 (db : DB) (oid uid : Nat) (st : StatusChoices) :
    OrderCreateSerializer.itemsRequired = false ∧
    OrderCreateSerializer.create db oid uid st none = Except.error ApiError.missingItemsKey ∧
    OrderCreateSerializer.create db oid uid st (some [])
      = Except.ok { db with orders := db.orders ++ [⟨oid, uid, st⟩] } :=
  ⟨rfl, rfl, rfl⟩

/-- Claim C8: the PATCH route dispatches to `partial_update`, for which
`get_serializer_class` selects `OrderSerializer`; that serializer declares
`items` read-only, so a supplied `items` payload is dropped and the item
table is untouched by the update. -/
theorem claim_C8 (db : DB) (oid : Nat) (st : Option StatusChoices)
    (supplied : Option (List ItemSpec)) :
    OrderViewSet.get_serializer_class ViewAction.patchUpdate = SerializerClass.orderSerializer ∧
    (OrderViewSet.get_serializer_class ViewAction.patchUpdate).itemsWritable = false ∧
    OrderViewSet.performUpdateAction db ViewAction.patchUpdate oid st supplied
      = Except.ok (OrderCreateSerializer.applyHeaderUpdate db oid st) ∧
    (OrderCreateSerializer.applyHeaderUpdate db oid st).orderItems = db.orderItems :=
  ⟨rfl, rfl, rfl, rfl⟩

/-- Claim C5: the serialized `total_price` is exactly the sum over the
order's items of quantity × referenced product price (exact rational — i.e.
decimal — arithmetic), and each item's `item_subtotal` is exactly
quantity × the price of the product row it references. -/
theorem claim_C5 (db : DB) (oid : Nat) :
    OrderSerializer.get_total_price db oid
      = ((itemsOfOrder db oid).map
          (fun i => (i.quantity : ℚ) * priceOf db i.product)).sum ∧
    ∀ i : OrderItem, ∀ p : Product, findProduct db i.product = some p →
      OrderItem.item_subtotal db i = (i.quantity : ℚ) * p.price := by
  refine ⟨rfl, ?_⟩
  intro i p hp
  simp [OrderItem.item_subtotal, priceOf, hp]

/-- Witness for C5: in the sample store, order 10 holds 2 × product 1
(price 5), so its reported total is 10, and that item's subtotal is 2 × 5. -/
theorem claim_C5_witness :
    OrderSerializer.get_total_price sampleDB 10 = 10 ∧
    OrderItem.item_subtotal sampleDB ⟨100, 10, 1, 2⟩ = 2 * 5 := by
  constructor
  · rw [(claim_C5 sampleDB 10).1]
    norm_num [itemsOfOrder, sampleDB, priceOf, findProduct]
  · rw [(claim_C5 sampleDB 10).2 ⟨100, 10, 1, 2⟩ ⟨1, "Laptop", "Portable computer", 5, 4⟩
        (by simp [findProduct, sampleDB])]
    norm_num

/-- Claim C2: an `update()` call whose validated data supplies `items`
(possibly `[]`) and whose specs all reference existing products succeeds,
and afterwards the order's item set is exactly the supplied specs — every
previously existing item of that order is gone — while other orders' items
are untouched and the header update lands in the same transaction. -/
theorem claim_C2 (db : DB) (oid : Nat) (st : Option StatusChoices) (specs : List ItemSpec)
    (hvalid : ∀ s ∈ specs, productExists db s.product = true) :
    ∃ db', OrderCreateSerializer.update db oid st (some specs) = Except.ok db' ∧
      (itemsOfOrder db' oid).map OrderItem.toPair = specs.map ItemSpec.toPair ∧
      (∀ oid', oid' ≠ oid → itemsOfOrder db' oid' = itemsOfOrder db oid') ∧
      db'.orders = (OrderCreateSerializer.applyHeaderUpdate db oid st).orders := by
  obtain ⟨db', heq, hp, ho, hlen, hother, hmain⟩ :=
    insertItems_ok oid specs
      { OrderCreateSerializer.applyHeaderUpdate db oid st with
          orderItems :=
            (OrderCreateSerializer.applyHeaderUpdate db oid st).orderItems.filter
              (fun i => !(i.order == oid)) }
      (fun s hs => hvalid s hs)
  refine ⟨db', ?_, ?_, ?_, ?_⟩
  · simpa [OrderCreateSerializer.update] using heq
  · rw [hmain]
    have hnil :
        itemsOfOrder
          { OrderCreateSerializer.applyHeaderUpdate db oid st with
              orderItems :=
                (OrderCreateSerializer.applyHeaderUpdate db oid st).orderItems.filter
                  (fun i => !(i.order == oid)) } oid = [] := by
      simp only [itemsOfOrder, List.filter_filter]
      apply List.filter_eq_nil_iff.mpr
      intro i _
      simp
    rw [hnil]
    simp
  · intro oid' hne
    rw [hother oid' hne]
    simp only [itemsOfOrder, List.filter_filter]
    apply List.filter_congr
    intro i _
    by_cases h : i.order = oid'
    · simp [h, hne]
    · simp [h]
  · simpa using ho

/-- Witness for C2: replacing order 10's single item (2 × product 1) with
`[3 × product 2]` in the sample store yields exactly that item set and
leaves order 11's (empty) item set alone. -/
theorem claim_C2_witness :
    ∃ db', OrderCreateSerializer.update sampleDB 10 (some StatusChoices.confirmed)
        (some [⟨2, 3⟩]) = Except.ok db' ∧
      (itemsOfOrder db' 10).map OrderItem.toPair = [(2, 3)] ∧
      itemsOfOrder db' 11 = itemsOfOrder sampleDB 11 := by
  obtain ⟨db', heq, hmain, hother, _⟩ :=
    claim_C2 sampleDB 10 (some StatusChoices.confirmed) [⟨2, 3⟩] (by decide)
  exact ⟨db', heq, hmain, hother 11 (by decide)⟩

/-- Claim C3: an `update()` call in which some supplied spec references a
nonexistent product fails, and the atomic block rolls back everything — the
persisted store (headers, statuses, and the complete prior item set) is
exactly the pre-call store. -/
theorem claim_C3 (db : DB) (oid : Nat) (st : Option StatusChoices) (specs : List ItemSpec)
    (hbad : ∃ s ∈ specs, productExists db s.product = false) :
    OrderCreateSerializer.updateFinal db oid st (some specs) = db := by
  obtain ⟨e, he⟩ :=
    insertItems_err oid specs
      { OrderCreateSerializer.applyHeaderUpdate db oid st with
          orderItems :=
            (OrderCreateSerializer.applyHeaderUpdate db oid st).orderItems.filter
              (fun i => !(i.order == oid)) }
      hbad
  simp [OrderCreateSerializer.updateFinal, OrderCreateSerializer.update, he]

/-- Witness for C3: updating order 10 with an item referencing the unknown
product 99 leaves the sample store exactly as it was. -/
theorem claim_C3_witness :
    OrderCreateSerializer.updateFinal sampleDB 10 (some StatusChoices.cancelled)
      (some [⟨99, 1⟩]) = sampleDB :=
  claim_C3 sampleDB 10 (some StatusChoices.cancelled) [⟨99, 1⟩] (by decide)

/-- Claim C6: the owner-scoped order listing rejects anonymous callers with
the unauthorized (401) error, and for an authenticated caller every returned
order is owned by the caller while no other user's order ever appears. -/
theorem claim_C6 (db : DB) :
    userOrderList db Caller.anonymous = Except.error ApiError.unauthorized ∧
    ∀ uid staff res,
      userOrderList db (Caller.authenticated uid staff) = Except.ok res →
        (∀ o ∈ res, o.user = uid) ∧
        ∀ o ∈ db.orders, o.user ≠ uid → o ∉ res := by
  refine ⟨rfl, ?_⟩
  intro uid staff res h
  have hres : res = db.orders.filter (fun o => o.user == uid) := by
    simpa [userOrderList] using h.symm
  subst hres
  constructor
  · intro o ho
    simpa using (List.mem_filter.mp ho).2
  · intro o _ hne hmem
    exact hne (by simpa using (List.mem_filter.mp hmem).2)

/-- Witness for C6: in the sample store, user 7's listing is exactly their
own order 10, and user 8's order 11 does not appear in it. -/
theorem claim_C6_witness :
    (∀ o ∈ [(⟨10, 7, StatusChoices.pending⟩ : Order)], o.user = 7) ∧
    (⟨11, 8, StatusChoices.confirmed⟩ : Order) ∉
      [(⟨10, 7, StatusChoices.pending⟩ : Order)] := by
  obtain ⟨h1, h2⟩ :=
    (claim_C6 sampleDB).2 7 false [⟨10, 7, StatusChoices.pending⟩] (by rfl)
  exact ⟨h1, h2 ⟨11, 8, StatusChoices.confirmed⟩ (by decide) (by decide)⟩

/-- Claim C7: `validate_price` rejects every price ≤ 0, so such a product
creation fails with the validation error and persists nothing; every price
> 0 passes validation and is returned unchanged. -/
theorem claim_C7 (db : DB) (pid : Nat) (nm ds : String) (price : ℚ) (stock : Nat) :
    (price ≤ 0 →
      productCreateFinal db pid nm ds price stock = db ∧
      productCreate db pid nm ds price stock
        = Except.error (ApiError.validationError "Price must be greater than 0")) ∧
    (0 < price → ProductSerializer.validate_price price = Except.ok price) := by
  constructor
  · intro h
    constructor
    · simp [productCreateFinal, productCreate, ProductSerializer.validate_price, h]
    · simp [productCreate, ProductSerializer.validate_price, h]
  · intro h
    simp [ProductSerializer.validate_price, not_le.mpr h]

/-- Witness for C7: price 0 is rejected and persists nothing in the sample
store; price 1 passes validation unchanged. -/
theorem claim_C7_witness :
    productCreateFinal sampleDB 3 "Sticker" "Free sticker" 0 5 = sampleDB ∧
    ProductSerializer.validate_price 1 = Except.ok 1 := by
  constructor
  · exact ((claim_C7 sampleDB 3 "Sticker" "Free sticker" 0 5).1 (by norm_num)).1
  · exact (claim_C7 sampleDB 3 "Sticker" "Free sticker" 1 5).2 (by norm_num)

/-- Claim C9: whatever query parameters the caller supplies — name/price
lookups, search, ordering, page, size — every product in the listing
response has positive stock, because `InStockFilter` is applied to every
listing request unconditionally. -/
theorem claim_C9 (db : DB) (q : ProductQuery) (p : Product)
    (h : p ∈ product_list db q) : 0 < p.stock := by
  simp only [product_list, paginate] at h
  have h1 := List.mem_of_mem_drop (List.mem_of_mem_take h)
  simpa using (List.mem_filter.mp h1).2

/-- Witness for C9: a product returned by the no-filter listing over the
sample store has positive stock. -/
theorem claim_C9_witness : 0 < (⟨1, "Laptop", "Portable computer", 5, 4⟩ : Product).stock :=
  claim_C9 sampleDB sampleQuery ⟨1, "Laptop", "Portable computer", 5, 4⟩ (by decide)

end Api
